import Mathlib

/-!
Shallow embedding of `src/amazon_login.go` (package main), the session-acquisition
engine: account/proxy selection with sticky affinity, proxy failover, cookie-based
session restoration with fallback to scripted login, and persistence of the
resulting cookies and mapping.

External effects (the chromedp browser driver, the filesystem, the random number
generator) are modelled explicitly:
  * each call to Go's rand.Intn is given a natural-number seed; the drawn index is
    seed % n, which ranges over all of [0, n) as the seed does, and rand.Intn's
    panic on n = 0 is modelled as an explicit panic outcome;
  * the successive draws inside the proxy-failover retry loop are a list of seeds
    (the supply); exhausting the supply without the loop exiting models the Go
    loop spinning without terminating for those draws;
  * the driver and filesystem are an oracle (`World`) fixing the outcome of each
    effectful step the Go code performs, in program order.
-/

set_option autoImplicit false

namespace AmazonLogin

/-- Account record: `type Account struct { Email, Password string }`. -/
structure Account where
  Email : String
  Password : String
deriving DecidableEq, Repr

/-- Proxy record: `type Proxy struct { Server, Port string }`. -/
structure Proxy where
  Server : String
  Port : String
deriving DecidableEq, Repr

/-- The in-memory account→proxy affinity map (`map[string]Proxy` in Go),
modelled as an association list where the most recent binding is first. -/
abbrev Mapping := List (String × Proxy)

/-- Lookup in the affinity map: first binding for the key wins. -/
def mlookup : Mapping → String → Option Proxy
  | [], _ => none
  | (e, p) :: rest, k => if e = k then some p else mlookup rest k

/-- Go's `mapping[email] = proxy`: the new binding shadows any earlier one. -/
def minsert (k : String) (p : Proxy) (m : Mapping) : Mapping := (k, p) :: m

/-- Result of `selectRandomAccountAndProxy`. Go's `rand.Intn(n)` panics when
n = 0, so selection on an empty pool is a runtime panic, not an error value. -/
inductive SelectResult
  | panic
  | ok (account : Account) (proxy : Proxy) (mapping : Mapping)
deriving DecidableEq, Repr

/-- `selectRandomAccountAndProxy` (amazon_login.go lines 121-130): draw a random
account; reuse its mapped proxy if present, otherwise draw a random proxy and
record the new affinity. `seedA`/`seedP` stand for the two rand.Intn draws. -/
def selectRandomAccountAndProxy (accounts : List Account) (proxies : List Proxy)
    (mapping : Mapping) (seedA seedP : Nat) : SelectResult :=
  if h : accounts.length = 0 then
    SelectResult.panic
  else
    let account := accounts.get ⟨seedA % accounts.length, Nat.mod_lt _ (Nat.pos_of_ne_zero h)⟩
    match mlookup mapping account.Email with
    | some proxy => SelectResult.ok account proxy mapping
    | none =>
      if h2 : proxies.length = 0 then
        SelectResult.panic
      else
        let proxy := proxies.get ⟨seedP % proxies.length, Nat.mod_lt _ (Nat.pos_of_ne_zero h2)⟩
        SelectResult.ok account proxy (minsert account.Email proxy mapping)

/-- The proxy-replacement retry loop (amazon_login.go lines 208-211): keep drawing
`proxies[rand.Intn(len(proxies))]` while the draw equals the failed proxy in both
Server and Port. Each element of `supply` is one draw; `none` means the whole
supply was consumed with the loop still spinning (in particular, when no proxy
distinct from `failed` exists, the Go loop never terminates on any draws). -/
def pickAlternate (proxies : List Proxy) (failed : Proxy) : List Nat → Option Proxy
  | [] => none
  | i :: rest =>
    let cand := proxies.getD (i % proxies.length) failed
    if cand.Server = failed.Server ∧ cand.Port = failed.Port then
      pickAlternate proxies failed rest
    else
      some cand

/-- Cookie record, restricted to the fields the program reads and injects
(amazon_login.go line 236: Name, Value, Path, Domain, Expires, Secure, HttpOnly).
Go stores Expires as a number of epoch seconds; it is modelled as an integer. -/
structure Cookie where
  name : String
  value : String
  domain : String
  path : String
  expires : Int
  secure : Bool
  httpOnly : Bool
deriving DecidableEq, Repr

/-- Oracle fixing the outcome of each effectful step `main` performs, in program
order: the initial reachability probe through the proxy, the stored cookie file
(parsed contents, or `none` when loadCookies errors), cookie injection,
navigation after injection, the authentication probe (whether Evaluate itself
succeeded and what it returned), the scripted login (`some cookies` when every
step succeeds and the driver jar is read, `none` when a step fails), the cookie
jar the driver would report during validation, and the two file writes. -/
structure World where
  probeOk : Bool
  storedCookies : Option (List Cookie)
  injectOk : Bool
  reuseNavOk : Bool
  evalOk : Bool
  probeExists : Bool
  loginResult : Option (List Cookie)
  currentCookies : List Cookie
  writeCookieOk : Bool
  writeMappingOk : Bool
deriving DecidableEq, Repr

/-- How a run of `main` ends: a Go runtime panic (empty pool given to rand.Intn),
the failover loop spinning without terminating, an acquisition failure (cookie
branch error or login step failure), a persistence failure after acquisition
succeeded, or success with the emitted cookie set. -/
inductive RunOutcome
  | panicked
  | diverge
  | acquireFailed
  | persistFailed
  | success (cookies : List Cookie)
deriving DecidableEq, Repr

/-- A WriteFile call `main` issues: the per-account cookie file or the mapping file. -/
inductive FileWrite
  | cookieFile (name : String) (data : List Cookie)
  | mappingFile (m : Mapping)
deriving DecidableEq, Repr

/-- Observable trace of one run of `main`: terminal outcome, the WriteFile calls
issued, whether a diagnostic page-markup capture was attempted, and the final
in-memory affinity mapping. -/
structure RunTrace where
  outcome : RunOutcome
  writes : List FileWrite
  htmlCaptured : Bool
  mapping : Mapping
deriving DecidableEq, Repr

/-- Cookie file name as computed inside `loadCookies` (amazon_login.go line 108). -/
def cookieFileNameLoad (email : String) : String :=
  "cookies_" ++ email.replace "@" "_" ++ ".json"

/-- Cookie file name as computed in `main` before saving (amazon_login.go line 230). -/
def cookieFileNameMain (email : String) : String :=
  "cookies_" ++ email.replace "@" "_" ++ ".json"

/-- Proxy probe and one-shot failover (amazon_login.go lines 194-227): when the
probe succeeded keep the selected proxy and mapping; otherwise run the
replacement loop and, if it exits with proxy q, update the account's affinity
to q. `none` propagates the loop not terminating on the given draws. -/
def failoverStep (proxies : List Proxy) (account : Account) (proxy : Proxy)
    (mapping1 : Mapping) (supply : List Nat) (w : World) : Option (Proxy × Mapping) :=
  if w.probeOk then
    some (proxy, mapping1)
  else
    match pickAlternate proxies proxy supply with
    | none => none
    | some q => some (q, minsert account.Email q mapping1)

/-- The save phase (amazon_login.go lines 273-291): write the cookie file; on
success also write the mapping file; any write error aborts (the cookie write
failing means the mapping write is never attempted). -/
def finishRun (cookieFile : String) (cookies : List Cookie) (mapping : Mapping)
    (w : World) : RunTrace :=
  if w.writeCookieOk then
    if w.writeMappingOk then
      ⟨RunOutcome.success cookies, [FileWrite.cookieFile cookieFile cookies, FileWrite.mappingFile mapping],
        false, mapping⟩
    else
      ⟨RunOutcome.persistFailed, [FileWrite.cookieFile cookieFile cookies, FileWrite.mappingFile mapping],
        false, mapping⟩
  else
    ⟨RunOutcome.persistFailed, [FileWrite.cookieFile cookieFile cookies], false, mapping⟩

/-- The cookie-restoration branch of `main` (amazon_login.go lines 229-271).
When stored cookies load: inject them, navigate, and run the authentication
probe; if the probe ran without error and found the signal element, the STORED
cookies are sent to the channel and saved; otherwise `performLogin` runs, and
an error anywhere in this branch just logs and returns (no markup capture).
When no stored cookies load: `performLogin` runs, and on error the page markup
capture is attempted before returning. -/
def cookiePhase (cookieFile : String) (mapping2 : Mapping) (w : World) : RunTrace :=
  match w.storedCookies with
  | some stored =>
    if w.injectOk then
      if w.reuseNavOk then
        if w.evalOk && w.probeExists then
          finishRun cookieFile stored mapping2 w
        else
          match w.loginResult with
          | some loginCookies => finishRun cookieFile loginCookies mapping2 w
          | none => ⟨RunOutcome.acquireFailed, [], false, mapping2⟩
      else
        ⟨RunOutcome.acquireFailed, [], false, mapping2⟩
    else
      ⟨RunOutcome.acquireFailed, [], false, mapping2⟩
  | none =>
    match w.loginResult with
    | some loginCookies => finishRun cookieFile loginCookies mapping2 w
    | none => ⟨RunOutcome.acquireFailed, [], true, mapping2⟩

/-- One run of `main` (amazon_login.go lines 157-292): select an account/proxy
pair, probe the proxy and fail over if needed, restore or acquire a session,
and persist cookies and mapping on success. -/
def runMain (accounts : List Account) (proxies : List Proxy) (mapping0 : Mapping)
    (seedA seedP : Nat) (supply : List Nat) (w : World) : RunTrace :=
  match selectRandomAccountAndProxy accounts proxies mapping0 seedA seedP with
  | SelectResult.panic => ⟨RunOutcome.panicked, [], false, mapping0⟩
  | SelectResult.ok account proxy mapping1 =>
    match failoverStep proxies account proxy mapping1 supply w with
    | none => ⟨RunOutcome.diverge, [], false, mapping1⟩
    | some (_, mapping2) => cookiePhase (cookieFileNameMain account.Email) mapping2 w

/-- JSON values, as produced by Go's encoding/json for the cookie record type
(restricted to the value kinds those records use). -/
inductive Json
  | str (s : String)
  | num (n : Int)
  | bool (b : Bool)
  | arr (xs : List Json)
  | obj (fields : List (String × Json))

/-- Field lookup inside a JSON object, as json.Unmarshal matches struct fields
by name. -/
def jlookup : List (String × Json) → String → Option Json
  | [], _ => none
  | (k, v) :: rest, key => if k = key then some v else jlookup rest key

/-- Extract a string value. -/
def asStr : Option Json → Option String
  | some (Json.str s) => some s
  | _ => none

/-- Extract a numeric value. -/
def asNum : Option Json → Option Int
  | some (Json.num n) => some n
  | _ => none

/-- Extract a boolean value. -/
def asBool : Option Json → Option Bool
  | some (Json.bool b) => some b
  | _ => none

/-- json.Marshal of one cookie record: an object with one field per struct field. -/
def encodeCookie (c : Cookie) : Json :=
  Json.obj [("name", Json.str c.name), ("value", Json.str c.value),
    ("domain", Json.str c.domain), ("path", Json.str c.path),
    ("expires", Json.num c.expires), ("secure", Json.bool c.secure),
    ("httpOnly", Json.bool c.httpOnly)]

/-- json.Unmarshal of one cookie record: read each field by name, failing if any
field is missing or has the wrong kind. -/
def decodeCookie : Json → Option Cookie
  | Json.obj fs =>
    match asStr (jlookup fs "name"), asStr (jlookup fs "value"),
        asStr (jlookup fs "domain"), asStr (jlookup fs "path"),
        asNum (jlookup fs "expires"), asBool (jlookup fs "secure"),
        asBool (jlookup fs "httpOnly") with
    | some n, some v, some d, some p, some e, some s, some h =>
      some ⟨n, v, d, p, e, s, h⟩
    | _, _, _, _, _, _, _ => none
  | _ => none

/-- json.Marshal of the cookie slice (amazon_login.go line 275). -/
def encodeCookies (cs : List Cookie) : Json :=
  Json.arr (cs.map encodeCookie)

/-- Element-wise decoding of a JSON array of cookie records. -/
def decodeCookieList : List Json → Option (List Cookie)
  | [] => some []
  | j :: rest =>
    match decodeCookie j, decodeCookieList rest with
    | some c, some cs => some (c :: cs)
    | _, _ => none

/-- json.Unmarshal into a cookie slice (amazon_login.go line 114). -/
def decodeCookies : Json → Option (List Cookie)
  | Json.arr js => decodeCookieList js
  | _ => none

/-- `loadCookies` (amazon_login.go lines 107-118) given the cookie file's parsed
contents: `none` when the file is unreadable, otherwise the decoded slice. -/
def loadCookies : Option Json → Option (List Cookie)
  | none => none
  | some j => decodeCookies j

/-- The Result Writer side (amazon_login.go lines 273-283): the file name and the
serialized payload `main` writes for an account's cookie set. -/
def saveCookiesFile (email : String) (cs : List Cookie) : String × Json :=
  (cookieFileNameMain email, encodeCookies cs)

example :
    selectRandomAccountAndProxy [⟨"a@x", "pw"⟩] [⟨"h", "1"⟩] [] 0 0 =
      SelectResult.ok ⟨"a@x", "pw"⟩ ⟨"h", "1"⟩ [("a@x", ⟨"h", "1"⟩)] := by decide

example : selectRandomAccountAndProxy [] [⟨"h", "1"⟩] [] 0 0 = SelectResult.panic := by decide

example : pickAlternate [⟨"h", "1"⟩, ⟨"h", "2"⟩] ⟨"h", "1"⟩ [0, 1] = some ⟨"h", "2"⟩ := by decide

example : pickAlternate [⟨"h", "1"⟩] ⟨"h", "1"⟩ [0, 0, 0] = none := by decide

example :
    (runMain [⟨"a@x", "pw"⟩] [⟨"h", "1"⟩] [] 0 0 []
      ⟨true, some [⟨"n", "v", "d", "/", 0, true, false⟩], true, true, true, true,
        none, [], true, true⟩).outcome =
      RunOutcome.success [⟨"n", "v", "d", "/", 0, true, false⟩] := by decide

example :
    (runMain [⟨"a@x", "pw"⟩] [⟨"h", "1"⟩] [] 0 0 []
      ⟨true, none, true, true, true, true, none, [], true, true⟩).htmlCaptured = true := by
  decide

theorem mlookup_minsert_self (k : String) (p : Proxy) (m : Mapping) :
    mlookup (minsert k p m) k = some p := by
  simp [mlookup, minsert]

theorem mlookup_minsert_ne (k k2 : String) (p : Proxy) (m : Mapping) (h : k2 ≠ k) :
    mlookup (minsert k p m) k2 = mlookup m k2 := by
  simp [mlookup, minsert, Ne.symm h]

theorem select_ok_shape {accounts : List Account} {proxies : List Proxy} {m0 : Mapping}
    {sa sp : Nat} {a : Account} {p : Proxy} {m1 : Mapping}
    (h : selectRandomAccountAndProxy accounts proxies m0 sa sp = SelectResult.ok a p m1) :
    a ∈ accounts ∧
      ((mlookup m0 a.Email = some p ∧ m1 = m0) ∨
        (mlookup m0 a.Email = none ∧ p ∈ proxies ∧ m1 = minsert a.Email p m0)) := by
  simp only [selectRandomAccountAndProxy] at h
  split at h
  · cases h
  · split at h
    · rename_i hm
      injection h with h1 h2 h3
      subst h1; subst h2; subst h3
      exact ⟨List.get_mem _ _ _, Or.inl ⟨hm, rfl⟩⟩
    · rename_i hm
      split at h
      · cases h
      · injection h with h1 h2 h3
        subst h1; subst h2; subst h3
        exact ⟨List.get_mem _ _ _, Or.inr ⟨hm, List.get_mem _ _ _, rfl⟩⟩

theorem select_ok_lookup {accounts : List Account} {proxies : List Proxy} {m0 : Mapping}
    {sa sp : Nat} {a : Account} {p : Proxy} {m1 : Mapping}
    (h : selectRandomAccountAndProxy accounts proxies m0 sa sp = SelectResult.ok a p m1) :
    mlookup m1 a.Email = some p := by
  rcases (select_ok_shape h).2 with ⟨hm, rfl⟩ | ⟨_, _, rfl⟩
  · exact hm
  · exact mlookup_minsert_self _ _ _

theorem select_ok_of_nonempty (accounts : List Account) (proxies : List Proxy)
    (m0 : Mapping) (sa sp : Nat) (ha : accounts ≠ []) (hp : proxies ≠ []) :
    ∃ a p m1, selectRandomAccountAndProxy accounts proxies m0 sa sp = SelectResult.ok a p m1 := by
  have ha0 : ¬accounts.length = 0 := by simpa [List.length_eq_zero] using ha
  have hp0 : ¬proxies.length = 0 := by simpa [List.length_eq_zero] using hp
  simp only [selectRandomAccountAndProxy, dif_neg ha0]
  split
  · exact ⟨_, _, _, rfl⟩
  · rw [dif_neg hp0]
    exact ⟨_, _, _, rfl⟩

theorem pickAlternate_ne {proxies : List Proxy} {failed q : Proxy} :
    ∀ {supply : List Nat}, pickAlternate proxies failed supply = some q →
      q.Server ≠ failed.Server ∨ q.Port ≠ failed.Port := by
  intro supply
  induction supply with
  | nil => intro h; cases h
  | cons i rest ih =>
    intro h
    simp only [pickAlternate] at h
    split at h
    · exact ih h
    · rename_i hcond
      injection h with h1
      subst h1
      exact not_and_or.mp hcond

theorem pickAlternate_all_failed (p : Proxy) :
    ∀ supply : List Nat, pickAlternate [p] p supply = none := by
  intro supply
  induction supply with
  | nil => rfl
  | cons i rest ih => simp [pickAlternate, Nat.mod_one, List.getD, ih]

theorem finishRun_mapping (f : String) (cs : List Cookie) (m : Mapping) (w : World) :
    (finishRun f cs m w).mapping = m := by
  simp only [finishRun]
  split <;> (try split) <;> rfl

theorem cookiePhase_mapping (f : String) (m : Mapping) (w : World) :
    (cookiePhase f m w).mapping = m := by
  simp only [cookiePhase]
  split <;> (try split) <;> (try split) <;> (try split) <;> (try split) <;>
    first
      | rfl
      | exact finishRun_mapping _ _ _ _

/-- C6: for all non-empty account and proxy pools and any mapping, selection
returns an account from the account pool and a proxy that is either the
mapping's entry for that account or an element of the proxy pool; when the
account had no mapping entry, the newly chosen proxy is recorded in the
returned mapping. -/
theorem select_in_pools (accounts : List Account) (proxies : List Proxy) (m0 : Mapping)
    (sa sp : Nat) (ha : accounts ≠ []) (hp : proxies ≠ []) :
    ∃ a p m1, selectRandomAccountAndProxy accounts proxies m0 sa sp = SelectResult.ok a p m1 ∧
      a ∈ accounts ∧ (mlookup m0 a.Email = some p ∨ p ∈ proxies) ∧
      (mlookup m0 a.Email = none → mlookup m1 a.Email = some p) := by
  obtain ⟨a, p, m1, hsel⟩ := select_ok_of_nonempty accounts proxies m0 sa sp ha hp
  obtain ⟨hmem, hcase⟩ := select_ok_shape hsel
  refine ⟨a, p, m1, hsel, hmem, ?_, fun _ => select_ok_lookup hsel⟩
  rcases hcase with ⟨hm, _⟩ | ⟨_, hpmem, _⟩
  · exact Or.inl hm
  · exact Or.inr hpmem

/-- C6 witness: selection on the concrete pools from the doc example. -/
theorem select_in_pools_witness :
    ([(⟨"a@x", "pw"⟩ : Account)] ≠ [] ∧ [(⟨"h", "1"⟩ : Proxy)] ≠ []) ∧
      ∃ a p m1,
        selectRandomAccountAndProxy [⟨"a@x", "pw"⟩] [⟨"h", "1"⟩] [] 0 0 = SelectResult.ok a p m1 ∧
          a ∈ [(⟨"a@x", "pw"⟩ : Account)] ∧
          (mlookup [] a.Email = some p ∨ p ∈ [(⟨"h", "1"⟩ : Proxy)]) ∧
          (mlookup [] a.Email = none → mlookup m1 a.Email = some p) :=
  ⟨⟨by decide, by decide⟩,
    select_in_pools [⟨"a@x", "pw"⟩] [⟨"h", "1"⟩] [] 0 0 (by decide) (by decide)⟩

/-- C7: sticky affinity is idempotent. If one call to selection returns account
a with proxy p and mapping m1, then a second call run on m1 (the Go map is
mutated in place, so the second call sees the first call's recorded affinity)
that chooses an account with the same email returns the same proxy, whatever
its random draws are. -/
theorem select_sticky (accounts : List Account) (proxies : List Proxy) (m0 : Mapping)
    (sa sp sa2 sp2 : Nat) (a b : Account) (p q : Proxy) (m1 m2 : Mapping)
    (h1 : selectRandomAccountAndProxy accounts proxies m0 sa sp = SelectResult.ok a p m1)
    (h2 : selectRandomAccountAndProxy accounts proxies m1 sa2 sp2 = SelectResult.ok b q m2)
    (he : b.Email = a.Email) : q = p := by
  have hl : mlookup m1 b.Email = some p := by
    rw [he]; exact select_ok_lookup h1
  rcases (select_ok_shape h2).2 with ⟨hm, _⟩ | ⟨hm, _, _⟩
  · rw [hl] at hm; injection hm with h; exact h.symm
  · rw [hl] at hm; cases hm

/-- C7 witness: two consecutive selections from singleton pools with different
second-draw seeds still return the same proxy. -/
theorem select_sticky_witness :
    selectRandomAccountAndProxy [⟨"a@x", "pw"⟩] [⟨"h", "1"⟩, ⟨"h", "2"⟩] [] 0 0 =
        SelectResult.ok ⟨"a@x", "pw"⟩ ⟨"h", "1"⟩ [("a@x", ⟨"h", "1"⟩)] ∧
      selectRandomAccountAndProxy [⟨"a@x", "pw"⟩] [⟨"h", "1"⟩, ⟨"h", "2"⟩]
          [("a@x", ⟨"h", "1"⟩)] 0 1 =
        SelectResult.ok ⟨"a@x", "pw"⟩ ⟨"h", "1"⟩ [("a@x", ⟨"h", "1"⟩)] ∧
      (⟨"h", "1"⟩ : Proxy) = ⟨"h", "1"⟩ :=
  ⟨by decide, by decide,
    select_sticky [⟨"a@x", "pw"⟩] [⟨"h", "1"⟩, ⟨"h", "2"⟩] [] 0 0 0 1
      ⟨"a@x", "pw"⟩ ⟨"a@x", "pw"⟩ ⟨"h", "1"⟩ ⟨"h", "1"⟩
      [("a@x", ⟨"h", "1"⟩)] [("a@x", ⟨"h", "1"⟩)] (by decide) (by decide) rfl⟩

/-- C10: selection modifies at most the mapping entry for the chosen account:
every entry under a different key is unchanged, and when the chosen account
already had an entry the whole mapping is returned unchanged. -/
theorem select_frame (accounts : List Account) (proxies : List Proxy) (m0 : Mapping)
    (sa sp : Nat) (a : Account) (p : Proxy) (m1 : Mapping)
    (h : selectRandomAccountAndProxy accounts proxies m0 sa sp = SelectResult.ok a p m1) :
    (∀ k, k ≠ a.Email → mlookup m1 k = mlookup m0 k) ∧
      (∀ r, mlookup m0 a.Email = some r → m1 = m0) := by
  rcases (select_ok_shape h).2 with ⟨_, rfl⟩ | ⟨hm, _, rfl⟩
  · exact ⟨fun _ _ => rfl, fun _ _ => rfl⟩
  · refine ⟨fun k hk => mlookup_minsert_ne _ _ _ _ hk, fun r hr => ?_⟩
    rw [hm] at hr; cases hr

/-- C10 witness: a selection that inserts a fresh affinity for a@x leaves the
entry of every other key unchanged. -/
theorem select_frame_witness :
    (∀ k, k ≠ (⟨"a@x", "pw"⟩ : Account).Email →
        mlookup [("a@x", ⟨"h", "1"⟩), ("b@x", ⟨"h", "9"⟩)] k =
          mlookup [("b@x", ⟨"h", "9"⟩)] k) ∧
      (∀ r, mlookup [("b@x", ⟨"h", "9"⟩)] (⟨"a@x", "pw"⟩ : Account).Email = some r →
        [("a@x", (⟨"h", "1"⟩ : Proxy)), ("b@x", ⟨"h", "9"⟩)] = [("b@x", ⟨"h", "9"⟩)]) :=
  select_frame [⟨"a@x", "pw"⟩] [⟨"h", "1"⟩] [("b@x", ⟨"h", "9"⟩)] 0 0
    ⟨"a@x", "pw"⟩ ⟨"h", "1"⟩ [("a@x", ⟨"h", "1"⟩), ("b@x", ⟨"h", "9"⟩)] (by decide)

/-- C2: on a proxy pool containing exactly one proxy, when that proxy is the
selected one (no prior affinity) and the probe fails, the replacement loop never
exits: for every sequence of random draws the run diverges, and no cookie or
mapping file is written. The code reaches no NoAlternateProxy error — no such
error exists in it; it loops forever re-drawing the only proxy. -/
theorem failover_no_alternate_diverges (a : Account) (p : Proxy) (mapping0 : Mapping)
    (seedA seedP : Nat) (supply : List Nat) (w : World)
    (hm : mlookup mapping0 a.Email = none) (hprobe : w.probeOk = false) :
    (runMain [a] [p] mapping0 seedA seedP supply w).outcome = RunOutcome.diverge ∧
      (runMain [a] [p] mapping0 seedA seedP supply w).writes = [] := by
  have hsel : selectRandomAccountAndProxy [a] [p] mapping0 seedA seedP =
      SelectResult.ok a p (minsert a.Email p mapping0) := by
    simp [selectRandomAccountAndProxy, Nat.mod_one, hm]
  have hfo : failoverStep [p] a p (minsert a.Email p mapping0) supply w = none := by
    simp [failoverStep, hprobe, pickAlternate_all_failed]
  simp [runMain, hsel, hfo]

/-- C2 witness: a concrete single-proxy pool whose proxy fails the probe. -/
theorem failover_no_alternate_diverges_witness :
    (mlookup [] (⟨"a@x", "pw"⟩ : Account).Email = none ∧
        (⟨false, none, true, true, true, true, none, [], true, true⟩ : World).probeOk = false) ∧
      ((runMain [⟨"a@x", "pw"⟩] [⟨"1.2.3.4", "8080"⟩] [] 0 0 [0, 1, 2]
            ⟨false, none, true, true, true, true, none, [], true, true⟩).outcome =
          RunOutcome.diverge ∧
        (runMain [⟨"a@x", "pw"⟩] [⟨"1.2.3.4", "8080"⟩] [] 0 0 [0, 1, 2]
            ⟨false, none, true, true, true, true, none, [], true, true⟩).writes = []) :=
  ⟨⟨rfl, rfl⟩,
    failover_no_alternate_diverges ⟨"a@x", "pw"⟩ ⟨"1.2.3.4", "8080"⟩ [] 0 0 [0, 1, 2]
      ⟨false, none, true, true, true, true, none, [], true, true⟩ rfl rfl⟩

/-- C5: whenever the probe fails and the replacement loop exits with proxy q,
the replacement differs from the failed proxy in Server or Port, and the final
in-memory affinity mapping maps the chosen account's email to q. -/
theorem failover_replacement_distinct (accounts : List Account) (proxies : List Proxy)
    (mapping0 : Mapping) (seedA seedP : Nat) (supply : List Nat) (w : World)
    (a : Account) (p q : Proxy) (m1 : Mapping)
    (hsel : selectRandomAccountAndProxy accounts proxies mapping0 seedA seedP =
      SelectResult.ok a p m1)
    (hprobe : w.probeOk = false)
    (hpick : pickAlternate proxies p supply = some q) :
    (q.Server ≠ p.Server ∨ q.Port ≠ p.Port) ∧
      mlookup (runMain accounts proxies mapping0 seedA seedP supply w).mapping a.Email =
        some q := by
  have hfo : failoverStep proxies a p m1 supply w = some (q, minsert a.Email q m1) := by
    simp [failoverStep, hprobe, hpick]
  refine ⟨pickAlternate_ne hpick, ?_⟩
  simp [runMain, hsel, hfo, cookiePhase_mapping, mlookup_minsert_self]

/-- C5 witness: a two-proxy pool where the first proxy fails and the draw picks
the second. -/
theorem failover_replacement_distinct_witness :
    (selectRandomAccountAndProxy [⟨"a@x", "pw"⟩] [⟨"h", "1"⟩, ⟨"h", "2"⟩] [] 0 0 =
          SelectResult.ok ⟨"a@x", "pw"⟩ ⟨"h", "1"⟩ [("a@x", ⟨"h", "1"⟩)] ∧
        (⟨false, none, true, true, true, true, none, [], true, true⟩ : World).probeOk = false ∧
        pickAlternate [⟨"h", "1"⟩, ⟨"h", "2"⟩] ⟨"h", "1"⟩ [1] = some ⟨"h", "2"⟩) ∧
      (((⟨"h", "2"⟩ : Proxy).Server ≠ (⟨"h", "1"⟩ : Proxy).Server ∨
          (⟨"h", "2"⟩ : Proxy).Port ≠ (⟨"h", "1"⟩ : Proxy).Port) ∧
        mlookup (runMain [⟨"a@x", "pw"⟩] [⟨"h", "1"⟩, ⟨"h", "2"⟩] [] 0 0 [1]
            ⟨false, none, true, true, true, true, none, [], true, true⟩).mapping
          (⟨"a@x", "pw"⟩ : Account).Email = some ⟨"h", "2"⟩) :=
  ⟨⟨by decide, rfl, by decide⟩,
    failover_replacement_distinct [⟨"a@x", "pw"⟩] [⟨"h", "1"⟩, ⟨"h", "2"⟩] [] 0 0 [1]
      ⟨false, none, true, true, true, true, none, [], true, true⟩
      ⟨"a@x", "pw"⟩ ⟨"h", "1"⟩ ⟨"h", "2"⟩ [("a@x", ⟨"h", "1"⟩)] (by decide) rfl (by decide)⟩

theorem cookiePhase_failed_no_writes (f : String) (m : Mapping) (w : World)
    (h : (cookiePhase f m w).outcome = RunOutcome.acquireFailed ∨
      (cookiePhase f m w).outcome = RunOutcome.diverge ∨
      (cookiePhase f m w).outcome = RunOutcome.panicked) :
    (cookiePhase f m w).writes = [] := by
  rcases w with ⟨po, st, inj, nav, ev, pe, lr, cur, wc, wm⟩
  cases st <;> cases inj <;> cases nav <;> cases ev <;> cases pe <;> cases lr <;>
    cases wc <;> cases wm <;> simp_all [cookiePhase, finishRun]

/-- C4: every run that does not reach the save phase with a successful
acquisition — a panic, the failover loop diverging, a cookie-branch error or a
login-step failure — issues no WriteFile call at all: neither the cookie file
nor the mapping file is written. -/
theorem runMain_failed_no_writes (accounts : List Account) (proxies : List Proxy)
    (mapping0 : Mapping) (seedA seedP : Nat) (supply : List Nat) (w : World)
    (h : (runMain accounts proxies mapping0 seedA seedP supply w).outcome =
        RunOutcome.acquireFailed ∨
      (runMain accounts proxies mapping0 seedA seedP supply w).outcome =
        RunOutcome.diverge ∨
      (runMain accounts proxies mapping0 seedA seedP supply w).outcome =
        RunOutcome.panicked) :
    (runMain accounts proxies mapping0 seedA seedP supply w).writes = [] := by
  simp only [runMain] at h ⊢
  cases hsel : selectRandomAccountAndProxy accounts proxies mapping0 seedA seedP with
  | panic => simp
  | ok a p m1 =>
    rw [hsel] at h
    dsimp only at h ⊢
    cases hfo : failoverStep proxies a p m1 supply w with
    | none => rfl
    | some pm =>
      obtain ⟨q, m2⟩ := pm
      rw [hfo] at h
      dsimp only at h ⊢
      exact cookiePhase_failed_no_writes _ _ _ h

/-- C4 witness: a failed fresh login (no stored cookies, login step fails)
writes nothing. -/
theorem runMain_failed_no_writes_witness :
    ((runMain [⟨"a@x", "pw"⟩] [⟨"h", "1"⟩] [] 0 0 []
          ⟨true, none, true, true, true, true, none, [], true, true⟩).outcome =
        RunOutcome.acquireFailed ∨
      (runMain [⟨"a@x", "pw"⟩] [⟨"h", "1"⟩] [] 0 0 []
          ⟨true, none, true, true, true, true, none, [], true, true⟩).outcome =
        RunOutcome.diverge ∨
      (runMain [⟨"a@x", "pw"⟩] [⟨"h", "1"⟩] [] 0 0 []
          ⟨true, none, true, true, true, true, none, [], true, true⟩).outcome =
        RunOutcome.panicked) ∧
      (runMain [⟨"a@x", "pw"⟩] [⟨"h", "1"⟩] [] 0 0 []
          ⟨true, none, true, true, true, true, none, [], true, true⟩).writes = [] :=
  ⟨Or.inl (by decide),
    runMain_failed_no_writes [⟨"a@x", "pw"⟩] [⟨"h", "1"⟩] [] 0 0 []
      ⟨true, none, true, true, true, true, none, [], true, true⟩ (Or.inl (by decide))⟩

/-- C1 counterexample: a run whose stored cookies pass the validity probe emits
the stored cookie set unchanged, not the cookie jar the driver currently
reports. Here the stored file holds one cookie and the driver jar holds a
different one; the outcome is the stored cookie, so the outcome is not obtained
by re-reading the driver's current cookies. -/
theorem valid_cookies_not_reread_cex :
    (runMain [⟨"a@x", "pw"⟩] [⟨"h", "1"⟩] [] 0 0 []
          ⟨true, some [⟨"stored", "v1", "d", "/", 0, true, false⟩], true, true, true, true,
            none, [⟨"rotated", "v2", "d", "/", 9, true, false⟩], true, true⟩).outcome =
        RunOutcome.success [⟨"stored", "v1", "d", "/", 0, true, false⟩] ∧
      (runMain [⟨"a@x", "pw"⟩] [⟨"h", "1"⟩] [] 0 0 []
          ⟨true, some [⟨"stored", "v1", "d", "/", 0, true, false⟩], true, true, true, true,
            none, [⟨"rotated", "v2", "d", "/", 9, true, false⟩], true, true⟩).outcome ≠
        RunOutcome.success
          (⟨true, some [⟨"stored", "v1", "d", "/", 0, true, false⟩], true, true, true, true,
            none, [⟨"rotated", "v2", "d", "/", 9, true, false⟩], true, true⟩ : World).currentCookies := by
  constructor
  · decide
  · decide

/-- C1 amended: when the stored cookies pass the validity probe, the emitted
outcome is exactly the stored cookie set, re-emitted unchanged (independent of
whatever the driver's cookie jar currently holds). -/
theorem valid_cookies_reemit_stored (accounts : List Account) (proxies : List Proxy)
    (mapping0 : Mapping) (seedA seedP : Nat) (supply : List Nat) (w : World)
    (stored : List Cookie) (a : Account) (p : Proxy) (m1 : Mapping)
    (hsel : selectRandomAccountAndProxy accounts proxies mapping0 seedA seedP =
      SelectResult.ok a p m1)
    (hprobe : w.probeOk = true) (hst : w.storedCookies = some stored)
    (hinj : w.injectOk = true) (hnav : w.reuseNavOk = true)
    (hev : w.evalOk = true) (hpe : w.probeExists = true)
    (hwc : w.writeCookieOk = true) (hwm : w.writeMappingOk = true) :
    (runMain accounts proxies mapping0 seedA seedP supply w).outcome =
      RunOutcome.success stored := by
  simp [runMain, hsel, failoverStep, hprobe, cookiePhase, hst, hinj, hnav, hev, hpe,
    finishRun, hwc, hwm]

/-- C1 witness: the amended statement at the counterexample's input. -/
theorem valid_cookies_reemit_stored_witness :
    (selectRandomAccountAndProxy [⟨"a@x", "pw"⟩] [⟨"h", "1"⟩] [] 0 0 =
        SelectResult.ok ⟨"a@x", "pw"⟩ ⟨"h", "1"⟩ [("a@x", ⟨"h", "1"⟩)]) ∧
      (runMain [⟨"a@x", "pw"⟩] [⟨"h", "1"⟩] [] 0 0 []
          ⟨true, some [⟨"stored", "v1", "d", "/", 0, true, false⟩], true, true, true, true,
            none, [⟨"rotated", "v2", "d", "/", 9, true, false⟩], true, true⟩).outcome =
        RunOutcome.success [⟨"stored", "v1", "d", "/", 0, true, false⟩] :=
  ⟨by decide,
    valid_cookies_reemit_stored [⟨"a@x", "pw"⟩] [⟨"h", "1"⟩] [] 0 0 []
      ⟨true, some [⟨"stored", "v1", "d", "/", 0, true, false⟩], true, true, true, true,
        none, [⟨"rotated", "v2", "d", "/", 9, true, false⟩], true, true⟩
      [⟨"stored", "v1", "d", "/", 0, true, false⟩]
      ⟨"a@x", "pw"⟩ ⟨"h", "1"⟩ [("a@x", ⟨"h", "1"⟩)]
      (by decide) rfl rfl rfl rfl rfl rfl rfl rfl⟩

/-- C3 counterexample: with an empty account pool, the run crashes (Go's
rand.Intn(0) panics); it does not terminate with an EmptyPool error value — no
such error exists in the code — so selection does crash in an unspecified way. -/
theorem empty_pool_panics_cex :
    (runMain [] [⟨"h", "1"⟩] [] 0 0 []
        ⟨true, none, true, true, true, true, none, [], true, true⟩).outcome =
      RunOutcome.panicked := by
  decide

/-- C3 amended: with an empty account pool, or an empty proxy pool together
with an empty affinity mapping, the run terminates before any network call,
but via a Go runtime panic inside selection (rand.Intn on a zero bound), not a
dedicated EmptyPool error; no cookie or mapping file is written. -/
theorem empty_pool_panics (accounts : List Account) (proxies : List Proxy)
    (mapping0 : Mapping) (seedA seedP : Nat) (supply : List Nat) (w : World)
    (h : accounts = [] ∨ (proxies = [] ∧ mapping0 = [])) :
    (runMain accounts proxies mapping0 seedA seedP supply w).outcome =
        RunOutcome.panicked ∧
      (runMain accounts proxies mapping0 seedA seedP supply w).writes = [] := by
  rcases h with h | ⟨hp, hm⟩
  · subst h
    simp [runMain, selectRandomAccountAndProxy]
  · subst hp; subst hm
    cases accounts with
    | nil => simp [runMain, selectRandomAccountAndProxy]
    | cons a rest =>
      have hsel : selectRandomAccountAndProxy (a :: rest) [] [] seedA seedP =
          SelectResult.panic := by
        simp [selectRandomAccountAndProxy, mlookup]
      simp [runMain, hsel]

/-- C3 witness: the amended statement at a concrete empty account pool. -/
theorem empty_pool_panics_witness :
    (([] : List Account) = [] ∨ (([(⟨"h", "1"⟩ : Proxy)] = []) ∧ ([] : Mapping) = [])) ∧
      ((runMain [] [⟨"h", "1"⟩] [] 0 0 []
            ⟨true, none, true, true, true, true, none, [], true, true⟩).outcome =
          RunOutcome.panicked ∧
        (runMain [] [⟨"h", "1"⟩] [] 0 0 []
            ⟨true, none, true, true, true, true, none, [], true, true⟩).writes = []) :=
  ⟨Or.inl rfl,
    empty_pool_panics [] [⟨"h", "1"⟩] [] 0 0 []
      ⟨true, none, true, true, true, true, none, [], true, true⟩ (Or.inl rfl)⟩

/-- C9 counterexample: on the fallback path — stored cookies present, validity
probe finds no signal element, scripted login then fails — the run ends in an
acquisition failure WITHOUT attempting the diagnostic page-markup capture (the
code logs the error and returns; only the no-stored-cookies path captures). -/
theorem cookie_fallback_no_capture_cex :
    (runMain [⟨"a@x", "pw"⟩] [⟨"h", "1"⟩] [] 0 0 []
          ⟨true, some [⟨"stored", "v1", "d", "/", 0, true, false⟩], true, true, true, false,
            none, [], true, true⟩).outcome = RunOutcome.acquireFailed ∧
      (runMain [⟨"a@x", "pw"⟩] [⟨"h", "1"⟩] [] 0 0 []
          ⟨true, some [⟨"stored", "v1", "d", "/", 0, true, false⟩], true, true, true, false,
            none, [], true, true⟩).htmlCaptured = false := by
  constructor
  · decide
  · decide

/-- C9 amended: a scripted-login step failure always ends the run in an
acquisition failure, but the diagnostic page-markup capture is attempted only
on the fresh-login path (no stored cookies); on the fallback path reached from
a failed cookie validation, the run terminates without capturing page markup. -/
theorem login_failure_capture (accounts : List Account) (proxies : List Proxy)
    (mapping0 : Mapping) (seedA seedP : Nat) (supply : List Nat) (w : World)
    (a : Account) (p : Proxy) (m1 : Mapping)
    (hsel : selectRandomAccountAndProxy accounts proxies mapping0 seedA seedP =
      SelectResult.ok a p m1)
    (hprobe : w.probeOk = true) (hlogin : w.loginResult = none) :
    (w.storedCookies = none →
        (runMain accounts proxies mapping0 seedA seedP supply w).outcome =
            RunOutcome.acquireFailed ∧
          (runMain accounts proxies mapping0 seedA seedP supply w).htmlCaptured = true) ∧
      (∀ stored, w.storedCookies = some stored → w.injectOk = true → w.reuseNavOk = true →
        (w.evalOk && w.probeExists) = false →
        (runMain accounts proxies mapping0 seedA seedP supply w).outcome =
            RunOutcome.acquireFailed ∧
          (runMain accounts proxies mapping0 seedA seedP supply w).htmlCaptured = false) := by
  constructor
  · intro hst
    simp [runMain, hsel, failoverStep, hprobe, cookiePhase, hst, hlogin]
  · intro stored hst hinj hnav hev
    simp [runMain, hsel, failoverStep, hprobe, cookiePhase, hst, hinj, hnav, hev, hlogin]

/-- C9 witness: the amended statement at the counterexample's input (fallback
path) — the fresh-login implication holds vacuously there, the fallback one
concretely. -/
theorem login_failure_capture_witness :
    ((⟨true, some [⟨"stored", "v1", "d", "/", 0, true, false⟩], true, true, true, false,
          none, [], true, true⟩ : World).storedCookies = none →
        (runMain [⟨"a@x", "pw"⟩] [⟨"h", "1"⟩] [] 0 0 []
            ⟨true, some [⟨"stored", "v1", "d", "/", 0, true, false⟩], true, true, true, false,
              none, [], true, true⟩).outcome = RunOutcome.acquireFailed ∧
          (runMain [⟨"a@x", "pw"⟩] [⟨"h", "1"⟩] [] 0 0 []
            ⟨true, some [⟨"stored", "v1", "d", "/", 0, true, false⟩], true, true, true, false,
              none, [], true, true⟩).htmlCaptured = true) ∧
      (∀ stored,
        (⟨true, some [⟨"stored", "v1", "d", "/", 0, true, false⟩], true, true, true, false,
            none, [], true, true⟩ : World).storedCookies = some stored →
        (⟨true, some [⟨"stored", "v1", "d", "/", 0, true, false⟩], true, true, true, false,
            none, [], true, true⟩ : World).injectOk = true →
        (⟨true, some [⟨"stored", "v1", "d", "/", 0, true, false⟩], true, true, true, false,
            none, [], true, true⟩ : World).reuseNavOk = true →
        ((⟨true, some [⟨"stored", "v1", "d", "/", 0, true, false⟩], true, true, true, false,
            none, [], true, true⟩ : World).evalOk &&
          (⟨true, some [⟨"stored", "v1", "d", "/", 0, true, false⟩], true, true, true, false,
            none, [], true, true⟩ : World).probeExists) = false →
        (runMain [⟨"a@x", "pw"⟩] [⟨"h", "1"⟩] [] 0 0 []
            ⟨true, some [⟨"stored", "v1", "d", "/", 0, true, false⟩], true, true, true, false,
              none, [], true, true⟩).outcome = RunOutcome.acquireFailed ∧
          (runMain [⟨"a@x", "pw"⟩] [⟨"h", "1"⟩] [] 0 0 []
            ⟨true, some [⟨"stored", "v1", "d", "/", 0, true, false⟩], true, true, true, false,
              none, [], true, true⟩).htmlCaptured = false) :=
  login_failure_capture [⟨"a@x", "pw"⟩] [⟨"h", "1"⟩] [] 0 0 []
    ⟨true, some [⟨"stored", "v1", "d", "/", 0, true, false⟩], true, true, true, false,
      none, [], true, true⟩
    ⟨"a@x", "pw"⟩ ⟨"h", "1"⟩ [("a@x", ⟨"h", "1"⟩)] (by decide) rfl rfl

theorem decodeCookie_encodeCookie (c : Cookie) : decodeCookie (encodeCookie c) = some c := by
  cases c
  rfl

theorem decodeCookieList_map_encode (cs : List Cookie) :
    decodeCookieList (cs.map encodeCookie) = some cs := by
  induction cs with
  | nil => rfl
  | cons c rest ih =>
    simp [decodeCookieList, decodeCookie_encodeCookie, ih]

/-- C8: cookie round-trip. Writing a cookie set through the Result Writer
(serialize with json.Marshal to the account's cookie file) and reading the file
back through loadCookies (json.Unmarshal) yields the same cookie set, record
for record and field for field; and both sides compute the same file name from
the account identifier. -/
theorem cookie_round_trip (email : String) (cs : List Cookie) :
    loadCookies (some (saveCookiesFile email cs).2) = some cs ∧
      (saveCookiesFile email cs).1 = cookieFileNameLoad email := by
  constructor
  · simp [loadCookies, saveCookiesFile, encodeCookies, decodeCookies,
      decodeCookieList_map_encode]
  · rfl

end AmazonLogin
